import Mathlib

/-!
Shallow embedding of the LivelyAPI API-description normalizer
(src/src/lib/api-analyzer.ts) in Lean 4.

Modelling conventions:
* JSON values produced by the platform JSON.parse are modelled by the
  inductive type Json below; JSON.parse itself and the platform URL parser
  (new URL) are platform primitives, so the analyzer entry point takes them
  as explicit function parameters (parseJson : String -> Option Json, where
  none models a thrown SyntaxError that the source catches, and
  isURL : String -> Bool).  JSON.parse is deterministic, so the two call
  sites in the source (isOpenAPISpec and parseOpenAPISpec) see the same
  result.
* JSON numbers are restricted to integers (all numeric literals occurring
  in the source are integers).
* JavaScript truthiness (x || d defaults, if (x) guards, ?. chains) is made
  explicit through the js* helper functions; each mirrors the ECMAScript
  behaviour on the value shapes admitted by the source's TypeScript
  interfaces.
* String.toLowerCase is modelled characterwise by Char.toLower (adequate
  for the ASCII alphabet the vendor signatures use), and String.includes by
  list-infix testing on the character lists.
-/

/-- JSON value, the result shape of a successful JSON.parse. -/
inductive Json where
  | null
  | bool (b : Bool)
  | num (n : Int)
  | str (s : String)
  | arr (elems : List Json)
  | obj (fields : List (String × Json))

/-- Key lookup in the field list of a parsed JSON object.  JSON.parse
produces objects with distinct keys, so first match is the match. -/
def lookupKey : List (String × Json) → String → Option Json
  | [], _ => none
  | (k, v) :: rest, key => if k = key then some v else lookupKey rest key

/-- Property access o.k (equivalently o?.k) on a JSON value: a field of an
object, undefined (none) otherwise. -/
def Json.lookup (j : Json) (key : String) : Option Json :=
  match j with
  | .obj fields => lookupKey fields key
  | _ => none

/-- Object.entries on a parsed JSON value restricted to objects (the only
shape the source's typed interfaces feed to it); declaration order. -/
def Json.entries : Json → List (String × Json)
  | .obj fields => fields
  | _ => []

/-- ECMAScript truthiness of a JSON value. -/
def Json.truthy : Json → Bool
  | .null => false
  | .bool b => b
  | .num n => n != 0
  | .str s => s != ""
  | .arr _ => true
  | .obj _ => true

/-- An optional JSON value (undefined modelled as none) filtered by
truthiness: models the guard if (x) on a possibly-absent value. -/
def jsTruthy? (j? : Option Json) : Option Json :=
  match j? with
  | some j => if j.truthy then some j else none
  | none => none

/-- x || d on a possibly-absent JSON value: x when truthy, else d. -/
def jsOr (j? : Option Json) (d : Json) : Json :=
  match j? with
  | some j => if j.truthy then j else d
  | none => d

/-- x || d where the field is string-typed in the source interfaces:
the string when truthy (non-empty), the default otherwise. -/
def jsStrOr (j? : Option Json) (d : String) : String :=
  match j? with
  | some (Json.str s) => if s = "" then d else s
  | _ => d

/-- The string content of a JSON value, if it is a string. -/
def Json.asString? : Json → Option String
  | .str s => some s
  | _ => none

/-- A string-typed field read without a default (e.g. location: param.in);
an absent or non-string value is modelled as the empty string. -/
def jsStrExact (j? : Option Json) : String :=
  match j? with
  | some (Json.str s) => s
  | _ => ""

/-- x === "lit" on a possibly-absent JSON value: strict equality with a
string literal, false for undefined and for non-string values. -/
def isStrEq (j? : Option Json) (s : String) : Bool :=
  match j? with
  | some (Json.str t) => t == s
  | _ => false

/-- Array.prototype.includes (SameValueZero) of a string in a list of JSON
values: only string elements can equal a string. -/
def jsIncludesStr (values : List Json) (s : String) : Bool :=
  values.any fun v =>
    match v with
    | Json.str t => t == s
    | _ => false

/-- First element of a JSON array: models xs?.[0]. -/
def jsHead? : Json → Option Json
  | .arr (x :: _) => some x
  | _ => none

/-- String.prototype.toLowerCase, characterwise (ASCII-adequate). -/
def jsToLowerCase (s : String) : String := String.mk (s.toList.map Char.toLower)

/-- String.prototype.includes: substring containment. -/
def jsIncludes (s sub : String) : Bool := decide (sub.toList <:+: s.toList)

/-- Decimal digit value of a character, if any. -/
def digitValue? (c : Char) : Option Nat :=
  if '0' ≤ c ∧ c ≤ '9' then some (c.toNat - 48) else none

/-- Hexadecimal digit value of a character, if any. -/
def hexDigitValue? (c : Char) : Option Nat :=
  if '0' ≤ c ∧ c ≤ '9' then some (c.toNat - 48)
  else if 'a' ≤ c ∧ c ≤ 'f' then some (c.toNat - 87)
  else if 'A' ≤ c ∧ c ≤ 'F' then some (c.toNat - 55)
  else none

/-- Accumulate leading digits of the given base, stopping at the first
non-digit (parseInt ignores everything from there on). -/
def takeDigits (dv : Char → Option Nat) (base : Nat) : List Char → Nat → Nat
  | [], acc => acc
  | c :: rest, acc =>
    match dv c with
    | some d => takeDigits dv base rest (acc * base + d)
    | none => acc

/-- Digit run parse: none (NaN) when no leading digit exists. -/
def jsParseIntCore (dv : Char → Option Nat) (base : Nat) (cs : List Char) : Option Nat :=
  match cs with
  | c :: _ =>
    match dv c with
    | some _ => some (takeDigits dv base cs 0)
    | none => none
  | [] => none

/-- Unsigned part of parseInt: auto-detected 0x/0X hexadecimal prefix,
decimal otherwise. -/
def jsParseIntUnsigned (cs : List Char) : Option Int :=
  match cs with
  | '0' :: 'x' :: rest => (jsParseIntCore hexDigitValue? 16 rest).map fun n => (n : Int)
  | '0' :: 'X' :: rest => (jsParseIntCore hexDigitValue? 16 rest).map fun n => (n : Int)
  | _ => (jsParseIntCore digitValue? 10 cs).map fun n => (n : Int)

/-- ECMAScript parseInt(s) with default radix: skip leading whitespace,
optional sign, auto-hex, leading digit run; none models NaN. -/
def jsParseInt (s : String) : Option Int :=
  match s.toList.dropWhile Char.isWhitespace with
  | '-' :: rest => (jsParseIntUnsigned rest).map Int.neg
  | '+' :: rest => jsParseIntUnsigned rest
  | cs => jsParseIntUnsigned cs

/-- The closed HTTP-method enum of the APIEndpoint interface. -/
inductive Method where
  | GET
  | POST
  | PUT
  | DELETE
  | PATCH
deriving DecidableEq, Repr

/-- The allowed-method membership test of parseOpenAPISpec combined with
the subsequent toUpperCase cast into the closed enum. -/
def Method.ofString? (s : String) : Option Method :=
  if s = "get" then some Method.GET
  else if s = "post" then some Method.POST
  else if s = "put" then some Method.PUT
  else if s = "delete" then some Method.DELETE
  else if s = "patch" then some Method.PATCH
  else none

/-- The string form of a method (the enum values are the strings). -/
def Method.toString : Method → String
  | .GET => "GET"
  | .POST => "POST"
  | .PUT => "PUT"
  | .DELETE => "DELETE"
  | .PATCH => "PATCH"

/-- interface APIParameter. -/
structure APIParameter where
  name : String
  type : String
  required : Bool
  description : String
  location : String
  exampleVal : Option Json := none

/-- interface APIResponse; statusCode is Option Int because parseInt of a
non-numeric response key yields NaN (modelled none). -/
structure APIResponse where
  statusCode : Option Int
  description : String
  schema : Option Json := none
  exampleVal : Option Json := none

/-- interface APIEndpoint. -/
structure APIEndpoint where
  path : String
  method : Method
  summary : String
  description : String
  parameters : List APIParameter
  responses : List APIResponse
  tags : List String

/-- The authentication type union of interface ParsedAPI. -/
inductive AuthType where
  | apiKey
  | bearer
  | oauth
  | basic
deriving DecidableEq, Repr

/-- The authentication record of interface ParsedAPI. -/
structure AuthInfo where
  type : AuthType
  location : Option String := none
  name : Option String := none

/-- interface ParsedAPI. -/
structure ParsedAPI where
  name : String
  baseUrl : String
  description : String
  endpoints : List APIEndpoint
  authentication : AuthInfo
  capabilities : List String

/-- POPULAR_APIS.stripe. -/
def POPULAR_APIS_stripe : ParsedAPI :=
  { name := "Stripe"
    baseUrl := "https://api.stripe.com/v1"
    description := "Payment processing and subscription management"
    authentication := { type := AuthType.bearer }
    endpoints :=
      [ { path := "/customers"
          method := Method.GET
          summary := "List customers"
          description := "Returns a list of your customers"
          parameters :=
            [ { name := "limit", type := "integer", required := false,
                description := "Number of customers to return", location := "query",
                exampleVal := some (Json.num 10) },
              { name := "email", type := "string", required := false,
                description := "Filter by customer email", location := "query" } ]
          responses :=
            [ { statusCode := some 200, description := "List of customers",
                exampleVal := some (Json.obj [("data", Json.arr []), ("has_more", Json.bool false)]) } ]
          tags := ["customers"] },
        { path := "/customers"
          method := Method.POST
          summary := "Create customer"
          description := "Creates a new customer object"
          parameters :=
            [ { name := "email", type := "string", required := false,
                description := "Customer email", location := "body" },
              { name := "name", type := "string", required := false,
                description := "Customer name", location := "body" },
              { name := "phone", type := "string", required := false,
                description := "Customer phone", location := "body" } ]
          responses :=
            [ { statusCode := some 200, description := "Customer created",
                exampleVal := some (Json.obj [("id", Json.str "cus_123"), ("email", Json.str "customer@example.com")]) } ]
          tags := ["customers"] },
        { path := "/payment_intents"
          method := Method.POST
          summary := "Create payment intent"
          description := "Creates a PaymentIntent object"
          parameters :=
            [ { name := "amount", type := "integer", required := true,
                description := "Amount in cents", location := "body",
                exampleVal := some (Json.num 2000) },
              { name := "currency", type := "string", required := true,
                description := "Currency code", location := "body",
                exampleVal := some (Json.str "usd") },
              { name := "customer", type := "string", required := false,
                description := "Customer ID", location := "body" } ]
          responses :=
            [ { statusCode := some 200, description := "Payment intent created",
                exampleVal := some (Json.obj [("id", Json.str "pi_123"), ("status", Json.str "requires_payment_method")]) } ]
          tags := ["payments"] },
        { path := "/subscriptions"
          method := Method.GET
          summary := "List subscriptions"
          description := "Returns a list of your subscriptions"
          parameters :=
            [ { name := "customer", type := "string", required := false,
                description := "Filter by customer ID", location := "query" },
              { name := "status", type := "string", required := false,
                description := "Filter by status", location := "query" } ]
          responses :=
            [ { statusCode := some 200, description := "List of subscriptions",
                exampleVal := some (Json.obj [("data", Json.arr []), ("has_more", Json.bool false)]) } ]
          tags := ["subscriptions"] } ]
    capabilities :=
      [ "Process payments", "Manage customers", "Handle subscriptions",
        "Create invoices", "Manage payment methods" ] }

/-- POPULAR_APIS.shopify. -/
def POPULAR_APIS_shopify : ParsedAPI :=
  { name := "Shopify"
    baseUrl := "https://{shop}.myshopify.com/admin/api/2023-10"
    description := "E-commerce platform for online stores"
    authentication := { type := AuthType.apiKey, location := some "header",
                        name := some "X-Shopify-Access-Token" }
    endpoints :=
      [ { path := "/products.json"
          method := Method.GET
          summary := "List products"
          description := "Retrieve a list of products"
          parameters :=
            [ { name := "limit", type := "integer", required := false,
                description := "Number of products to return", location := "query",
                exampleVal := some (Json.num 50) },
              { name := "status", type := "string", required := false,
                description := "Filter by status", location := "query" } ]
          responses :=
            [ { statusCode := some 200, description := "List of products",
                exampleVal := some (Json.obj [("products", Json.arr [])]) } ]
          tags := ["products"] },
        { path := "/orders.json"
          method := Method.GET
          summary := "List orders"
          description := "Retrieve a list of orders"
          parameters :=
            [ { name := "status", type := "string", required := false,
                description := "Filter by order status", location := "query" },
              { name := "limit", type := "integer", required := false,
                description := "Number of orders to return", location := "query",
                exampleVal := some (Json.num 50) } ]
          responses :=
            [ { statusCode := some 200, description := "List of orders",
                exampleVal := some (Json.obj [("orders", Json.arr [])]) } ]
          tags := ["orders"] },
        { path := "/customers.json"
          method := Method.GET
          summary := "List customers"
          description := "Retrieve a list of customers"
          parameters :=
            [ { name := "limit", type := "integer", required := false,
                description := "Number of customers to return", location := "query",
                exampleVal := some (Json.num 50) } ]
          responses :=
            [ { statusCode := some 200, description := "List of customers",
                exampleVal := some (Json.obj [("customers", Json.arr [])]) } ]
          tags := ["customers"] },
        { path := "/inventory_levels.json"
          method := Method.GET
          summary := "Get inventory levels"
          description := "Retrieve inventory levels for products"
          parameters :=
            [ { name := "inventory_item_ids", type := "string", required := false,
                description := "Comma-separated inventory item IDs", location := "query" } ]
          responses :=
            [ { statusCode := some 200, description := "Inventory levels",
                exampleVal := some (Json.obj [("inventory_levels", Json.arr [])]) } ]
          tags := ["inventory"] } ]
    capabilities :=
      [ "Manage products", "Process orders", "Handle customers",
        "Track inventory", "Manage collections" ] }

/-- POPULAR_APIS.slack. -/
def POPULAR_APIS_slack : ParsedAPI :=
  { name := "Slack"
    baseUrl := "https://slack.com/api"
    description := "Team communication and collaboration platform"
    authentication := { type := AuthType.bearer }
    endpoints :=
      [ { path := "/chat.postMessage"
          method := Method.POST
          summary := "Send message"
          description := "Sends a message to a channel"
          parameters :=
            [ { name := "channel", type := "string", required := true,
                description := "Channel ID or name", location := "body",
                exampleVal := some (Json.str "#general") },
              { name := "text", type := "string", required := true,
                description := "Message text", location := "body",
                exampleVal := some (Json.str "Hello, world!") },
              { name := "username", type := "string", required := false,
                description := "Bot username", location := "body" } ]
          responses :=
            [ { statusCode := some 200, description := "Message sent",
                exampleVal := some (Json.obj [("ok", Json.bool true), ("ts", Json.str "1234567890.123456")]) } ]
          tags := ["messaging"] },
        { path := "/users.list"
          method := Method.GET
          summary := "List users"
          description := "Lists all users in a Slack team"
          parameters :=
            [ { name := "limit", type := "integer", required := false,
                description := "Number of users to return", location := "query",
                exampleVal := some (Json.num 100) } ]
          responses :=
            [ { statusCode := some 200, description := "List of users",
                exampleVal := some (Json.obj [("ok", Json.bool true), ("members", Json.arr [])]) } ]
          tags := ["users"] },
        { path := "/channels.list"
          method := Method.GET
          summary := "List channels"
          description := "Lists all channels in a Slack team"
          parameters :=
            [ { name := "exclude_archived", type := "boolean", required := false,
                description := "Exclude archived channels", location := "query",
                exampleVal := some (Json.bool true) } ]
          responses :=
            [ { statusCode := some 200, description := "List of channels",
                exampleVal := some (Json.obj [("ok", Json.bool true), ("channels", Json.arr [])]) } ]
          tags := ["channels"] },
        { path := "/files.upload"
          method := Method.POST
          summary := "Upload file"
          description := "Uploads or creates a file"
          parameters :=
            [ { name := "channels", type := "string", required := false,
                description := "Comma-separated list of channel names or IDs", location := "body" },
              { name := "content", type := "string", required := false,
                description := "File contents", location := "body" },
              { name := "filename", type := "string", required := false,
                description := "Filename of file", location := "body" } ]
          responses :=
            [ { statusCode := some 200, description := "File uploaded",
                exampleVal := some (Json.obj [("ok", Json.bool true), ("file", Json.obj [("id", Json.str "F1234567890")])]) } ]
          tags := ["files"] } ]
    capabilities :=
      [ "Send messages", "Manage channels", "Handle users",
        "Upload files", "Create workflows" ] }

/-- APIAnalyzer.detectPopularAPI. -/
def detectPopularAPI (input : String) : Option ParsedAPI :=
  let normalizedInput := jsToLowerCase input
  if jsIncludes normalizedInput "stripe" || jsIncludes normalizedInput "api.stripe.com" then
    some POPULAR_APIS_stripe
  else if jsIncludes normalizedInput "shopify" || jsIncludes normalizedInput "myshopify.com" then
    some POPULAR_APIS_shopify
  else if jsIncludes normalizedInput "slack" || jsIncludes normalizedInput "slack.com/api" then
    some POPULAR_APIS_slack
  else
    none

/-- The truthiness test parsed.openapi || parsed.swagger performed by
APIAnalyzer.isOpenAPISpec on a successfully parsed document.  (When the
parse result is null, the property access throws inside the try block and
is caught, which coincides with the false this returns for Json.null.) -/
def isOpenAPISpecJson (parsed : Json) : Bool :=
  (jsTruthy? (parsed.lookup "openapi")).isSome || (jsTruthy? (parsed.lookup "swagger")).isSome

/-- APIAnalyzer.isOpenAPISpec: a JSON.parse failure is caught internally
and yields false (the catch branch of the source). -/
def isOpenAPISpec (parseJson : String → Option Json) (input : String) : Bool :=
  match parseJson input with
  | some parsed => isOpenAPISpecJson parsed
  | none => false

/-- The per-declared-parameter mapping of parseOpenAPISpec. -/
def parseParameter (param : Json) : APIParameter :=
  { name := jsStrExact (param.lookup "name")
    type := jsStrOr (param.lookup "type") "string"
    required := (jsTruthy? (param.lookup "required")).isSome
    description := jsStrOr (param.lookup "description") ""
    location := jsStrExact (param.lookup "in")
    exampleVal := param.lookup "example" }

/-- The declared-parameters block: if (methodObj.parameters) then the 1:1
mapping, else nothing.  (The typed interface makes the field an array when
present.) -/
def parseParameters (methodObj : Json) : List APIParameter :=
  match methodObj.lookup "parameters" with
  | some (Json.arr ps) => ps.map parseParameter
  | _ => []

/-- The request-body-schema block of parseOpenAPISpec: one body-located
parameter per declared property, required iff the name occurs in the
schema's required array (present and an array, else none required). -/
def bodyParamsOfSchema (schema : Json) : List APIParameter :=
  let requiredProperties : List Json :=
    match schema.lookup "required" with
    | some (Json.arr xs) => xs
    | _ => []
  (jsOr (schema.lookup "properties") (Json.obj [])).entries.map fun nameProp =>
    { name := nameProp.1
      type := jsStrOr (nameProp.2.lookup "type") "string"
      required := jsIncludesStr requiredProperties nameProp.1
      description := jsStrOr (nameProp.2.lookup "description") ""
      location := "body"
      exampleVal := nameProp.2.lookup "example" }

/-- The requestBody guard chain of parseOpenAPISpec:
if (methodObj.requestBody?.content) and then if (jsonContent?.schema). -/
def bodyParameters (methodObj : Json) : List APIParameter :=
  match jsTruthy? ((methodObj.lookup "requestBody").bind fun rb => rb.lookup "content") with
  | some content =>
    match jsTruthy? ((content.lookup "application/json").bind fun jc => jc.lookup "schema") with
    | some schema => bodyParamsOfSchema schema
    | none => []
  | none => []

/-- The responses block of parseOpenAPISpec: one APIResponse per declared
response code. -/
def parseResponses (methodObj : Json) : List APIResponse :=
  (jsOr (methodObj.lookup "responses") (Json.obj [])).entries.map fun codeResp =>
    { statusCode := jsParseInt codeResp.1
      description := jsStrOr (codeResp.2.lookup "description") ""
      schema := none
      exampleVal := ((codeResp.2.lookup "content").bind fun c =>
        c.lookup "application/json").bind fun m => m.lookup "example" }

/-- A tags array element read as a string (the typed interface makes tags
a string array); a non-string element is modelled as the empty string. -/
def jsStrExactOfJson : Json → String
  | Json.str s => s
  | _ => ""

/-- Assembly of one APIEndpoint from a path, an enum method and the
operation object. -/
def parseEndpoint (path : String) (method : Method) (methodObj : Json) : APIEndpoint :=
  { path := path
    method := method
    summary := jsStrOr (methodObj.lookup "summary") ""
    description := jsStrOr (methodObj.lookup "description") ""
    parameters := parseParameters methodObj ++ bodyParameters methodObj
    responses := parseResponses methodObj
    tags :=
      match methodObj.lookup "tags" with
      | some (Json.arr ts) => ts.map jsStrExactOfJson
      | _ => [] }

/-- APIAnalyzer.parseAuthentication. -/
def parseAuthentication (spec : Json) : AuthInfo :=
  match jsTruthy? ((spec.lookup "components").bind fun c => c.lookup "securitySchemes") with
  | none => { type := AuthType.apiKey }
  | some securitySchemes =>
    match securitySchemes.entries.head? with
    | some nameScheme =>
      let firstScheme := nameScheme.2
      if isStrEq (firstScheme.lookup "type") "http" && isStrEq (firstScheme.lookup "scheme") "bearer" then
        { type := AuthType.bearer }
      else if isStrEq (firstScheme.lookup "type") "apiKey" then
        { type := AuthType.apiKey
          location := (firstScheme.lookup "in").bind Json.asString?
          name := (firstScheme.lookup "name").bind Json.asString? }
      else
        { type := AuthType.apiKey }
    | none => { type := AuthType.apiKey }

/-- Set.prototype.add on the capabilities accumulator (insertion order of
first occurrence, duplicates suppressed). -/
def addCap (capabilities : List String) (s : String) : List String :=
  if s ∈ capabilities then capabilities else capabilities ++ [s]

/-- APIAnalyzer.generateCapabilities. -/
def generateCapabilities (endpoints : List APIEndpoint) : List String :=
  endpoints.foldl
    (fun capabilities endpoint =>
      let capabilities := endpoint.tags.foldl
        (fun caps tag => addCap caps ("Manage " ++ tag)) capabilities
      let capabilities :=
        if endpoint.method = Method.GET then addCap capabilities "Retrieve data" else capabilities
      let capabilities :=
        if endpoint.method = Method.POST then addCap capabilities "Create resources" else capabilities
      let capabilities :=
        if endpoint.method = Method.PUT ∨ endpoint.method = Method.PATCH then
          addCap capabilities "Update resources"
        else capabilities
      if endpoint.method = Method.DELETE then addCap capabilities "Delete resources" else capabilities)
    []

/-- APIAnalyzer.parseOpenAPISpec on the (deterministic) JSON.parse result
of the input document. -/
def parseOpenAPISpec (parsed : Json) : ParsedAPI :=
  let endpoints : List APIEndpoint :=
    (jsOr (parsed.lookup "paths") (Json.obj [])).entries.flatMap fun pathEntry =>
      pathEntry.2.entries.filterMap fun methodEntry =>
        (Method.ofString? methodEntry.1).map fun m =>
          parseEndpoint pathEntry.1 m methodEntry.2
  { name := jsStrOr ((parsed.lookup "info").bind fun i => i.lookup "title") "Unknown API"
    baseUrl := jsStrOr (((parsed.lookup "servers").bind jsHead?).bind fun s => s.lookup "url") ""
    description := jsStrOr ((parsed.lookup "info").bind fun i => i.lookup "description") ""
    endpoints := endpoints
    authentication := parseAuthentication parsed
    capabilities := generateCapabilities endpoints }

/-- APIAnalyzer.analyzeAPIFromURL: the fixed placeholder record (the
source performs no network request; the function is pure in its url
argument). -/
def analyzeAPIFromURL (url : String) : ParsedAPI :=
  { name := "Custom API"
    baseUrl := url
    description := "Custom API endpoint"
    endpoints :=
      [ { path := "/"
          method := Method.GET
          summary := "Root endpoint"
          description := "Main API endpoint"
          parameters := []
          responses := [ { statusCode := some 200, description := "Success" } ]
          tags := ["general"] } ]
    authentication := { type := AuthType.apiKey }
    capabilities := ["General API operations"] }

/-- The message of the error thrown when no classification strategy
applies. -/
def unrecognizedInputError : String :=
  "Unable to analyze API. Please provide a valid URL or OpenAPI specification."

/-- APIAnalyzer.analyzeAPI, parameterized by the platform primitives
JSON.parse and URL-validity.  The source calls JSON.parse twice on the
same input (in isOpenAPISpec and parseOpenAPISpec); JSON.parse being
deterministic, the single match below is equivalent and makes the
parse-failure fallthrough (the caught exception) explicit. -/
def analyzeAPI (parseJson : String → Option Json) (isURL : String → Bool)
    (input : String) : Except String ParsedAPI :=
  match detectPopularAPI input with
  | some popularAPI => Except.ok popularAPI
  | none =>
    match parseJson input with
    | some parsed =>
      if isOpenAPISpecJson parsed then Except.ok (parseOpenAPISpec parsed)
      else if isURL input then Except.ok (analyzeAPIFromURL input)
      else Except.error unrecognizedInputError
    | none =>
      if isURL input then Except.ok (analyzeAPIFromURL input)
      else Except.error unrecognizedInputError

/-- One bump of the method-count accumulator of
generateNaturalLanguageDescription (plain-object key update: first
occurrence appends, later occurrences increment in place). -/
def bumpCount : List (String × Nat) → String → List (String × Nat)
  | [], m => [(m, 1)]
  | (k, c) :: rest, m =>
    if k = m then (k, c + 1) :: rest else (k, c) :: bumpCount rest m

/-- The methods reduce of generateNaturalLanguageDescription: counts per
method string, keyed in order of first occurrence. -/
def methodCounts (endpoints : List APIEndpoint) : List (String × Nat) :=
  endpoints.foldl (fun acc endpoint => bumpCount acc endpoint.method.toString) []

/-- APIAnalyzer.generateNaturalLanguageDescription. -/
def generateNaturalLanguageDescription (api : ParsedAPI) : String :=
  let desc := api.name ++ " is " ++ api.description ++ ". "
  let desc := desc ++ "It provides " ++ toString api.capabilities.length ++
    " main capabilities: " ++ String.intercalate ", " api.capabilities ++ ". "
  let desc := desc ++ "The API has " ++ toString api.endpoints.length ++
    " endpoints available for integration. "
  let methods := methodCounts api.endpoints
  let desc := desc ++ "Available operations include: "
  let desc := desc ++ String.intercalate ", " (methods.map fun methodCount =>
    toString methodCount.2 ++ " " ++ methodCount.1 ++ " endpoint" ++
    (if methodCount.2 > 1 then "s" else ""))
  desc ++ "."

/-! Specification-side definitions: restatements of the spec's counting,
capability and authentication language, to be compared with the functions
embedded from the source above. -/

/-- The five-member method set of the spec (document keys are the
lower-case verb names). -/
def allowedMethodNames : List String := ["get", "post", "put", "delete", "patch"]

/-- The number of (path, method) pairs of the document's paths mapping
whose method is one of the five allowed verbs, as the spec counts them. -/
def allowedPathMethodCount (parsed : Json) : Nat :=
  ((jsOr (parsed.lookup "paths") (Json.obj [])).entries.flatMap
    (fun pathEntry => pathEntry.2.entries.map Prod.fst)).countP
    (fun m => decide (m ∈ allowedMethodNames))

/-- The spec's wording for a body property's type: the declared type,
defaulting to string. -/
def expectedPropertyType (prop : Json) : String :=
  match prop.lookup "type" with
  | some (Json.str s) => if s = "" then "string" else s
  | _ => "string"

/-- The spec's per-method capability: exactly one label per endpoint,
chosen by its method. -/
def methodCapability : Method → String
  | .GET => "Retrieve data"
  | .POST => "Create resources"
  | .PUT => "Update resources"
  | .PATCH => "Update resources"
  | .DELETE => "Delete resources"

/-- The raw capability stream of the spec's derivation rule: per endpoint,
one Manage label per tag followed by the per-method label. -/
def capabilityStream (endpoints : List APIEndpoint) : List String :=
  endpoints.flatMap fun e =>
    e.tags.map (fun t => "Manage " ++ t) ++ [methodCapability e.method]

/-- Deduplication keeping the first occurrence of each element, in
insertion order (the spec's set semantics). -/
def dedupFirstOccurrence (l : List String) : List String := l.foldl addCap []

/-- A document carrying exactly the given components.securitySchemes map
(test-harness construction for the authentication claims). -/
def securitySchemesDoc (schemes : List (String × Json)) : Json :=
  Json.obj [("components", Json.obj [("securitySchemes", Json.obj schemes)])]

/-! Helper lemmas. -/

/-- includes is monotone under substring containment of the needle. -/
theorem jsIncludes_sub (s t u : String) (h : jsIncludes s t = true)
    (hu : u.toList <:+: t.toList) : jsIncludes s u = true := by
  unfold jsIncludes at h ⊢
  exact decide_eq_true (List.IsInfix.trans hu (of_decide_eq_true h))

/-- Contrapositive form of jsIncludes_sub. -/
theorem jsIncludes_sub_false (s t u : String) (h : jsIncludes s u = false)
    (hu : u.toList <:+: t.toList) : jsIncludes s t = false := by
  cases ht : jsIncludes s t with
  | false => rfl
  | true => rw [jsIncludes_sub s t u ht hu] at h; cases h

/-- Array.includes of a string within a string array coincides with list
membership. -/
theorem jsIncludesStr_map_str (names : List String) (n : String) :
    jsIncludesStr (names.map Json.str) n = decide (n ∈ names) := by
  induction names with
  | nil => rfl
  | cons x xs ih =>
    show ((x == n) || jsIncludesStr (xs.map Json.str) n) = decide (n ∈ x :: xs)
    rw [ih]
    by_cases h : n = x
    · subst h; simp
    · have hxn : (x == n) = false := beq_eq_false_iff_ne.mpr (Ne.symm h)
      simp [hxn, List.mem_cons, h]

/-- The empty-string default of the || idiom is the identity read. -/
theorem jsStrOr_empty (o : Option Json) : jsStrOr o "" = jsStrExact o := by
  cases o with
  | none => rfl
  | some j =>
    cases j with
    | str s => by_cases h : s = "" <;> simp [jsStrOr, jsStrExact, h]
    | null => rfl
    | bool b => rfl
    | num n => rfl
    | arr xs => rfl
    | obj fs => rfl

/-- The enum cast succeeds exactly on the five allowed method names. -/
theorem ofString?_isSome (m : String) :
    (Method.ofString? m).isSome = decide (m ∈ allowedMethodNames) := by
  unfold Method.ofString? allowedMethodNames
  split_ifs with h1 h2 h3 h4 h5 <;> simp_all

/-- Length of a filterMap as a count of successful hits. -/
theorem length_filterMap_countP (f : α → Option β) (l : List α) :
    (l.filterMap f).length = l.countP fun x => (f x).isSome := by
  induction l with
  | nil => rfl
  | cons x xs ih =>
    cases h : f x <;> simp [List.filterMap_cons, h, List.countP_cons, ih]

/-- Membership through the set-insertion step. -/
theorem addCap_mem (acc : List String) (x s : String) :
    s ∈ addCap acc x ↔ s ∈ acc ∨ s = x := by
  unfold addCap
  split
  · constructor
    · exact Or.inl
    · rintro (hs | rfl)
      · exact hs
      · assumption
  · simp

/-- Membership through a fold of set insertions. -/
theorem foldl_addCap_mem (l : List String) (acc : List String) (s : String) :
    s ∈ l.foldl addCap acc ↔ s ∈ acc ∨ s ∈ l := by
  induction l generalizing acc with
  | nil => simp
  | cons x xs ih => simp [ih, addCap_mem, or_assoc]

/-- The set-insertion step preserves distinctness. -/
theorem addCap_nodup (acc : List String) (x : String) (h : acc.Nodup) :
    (addCap acc x).Nodup := by
  unfold addCap
  split
  · exact h
  · simp_all [List.nodup_append, List.Disjoint]
    intro a ha rfl
    simp_all

/-- A fold of set insertions preserves distinctness. -/
theorem foldl_addCap_nodup (l : List String) (acc : List String) (h : acc.Nodup) :
    (l.foldl addCap acc).Nodup := by
  induction l generalizing acc with
  | nil => exact h
  | cons x xs ih => exact ih _ (addCap_nodup _ _ h)

/-- C1: analyze tries the three classification strategies in the exact
order known-vendor match, OpenAPI/Swagger document, bare URL, first match
winning; it fails (with the UnrecognizedInputError message, the only
possible error) if and only if none of the three applies, and a JSON
parse failure during OpenAPI detection is caught internally (the
detection merely reports false) so control falls through to URL
classification. -/
theorem analyzeAPI_classification_order (parseJson : String → Option Json)
    (isURL : String → Bool) (input : String) :
    (∀ api, detectPopularAPI input = some api →
      analyzeAPI parseJson isURL input = Except.ok api)
    ∧ (detectPopularAPI input = none → ∀ j, parseJson input = some j →
        isOpenAPISpecJson j = true →
        analyzeAPI parseJson isURL input = Except.ok (parseOpenAPISpec j))
    ∧ (detectPopularAPI input = none → isOpenAPISpec parseJson input = false →
        isURL input = true →
        analyzeAPI parseJson isURL input = Except.ok (analyzeAPIFromURL input))
    ∧ (analyzeAPI parseJson isURL input = Except.error unrecognizedInputError ↔
        detectPopularAPI input = none ∧ isOpenAPISpec parseJson input = false ∧
        isURL input = false)
    ∧ (parseJson input = none → isOpenAPISpec parseJson input = false)
    ∧ (∀ m, analyzeAPI parseJson isURL input = Except.error m →
        m = unrecognizedInputError) := by
  refine ⟨?_, ?_, ?_, ?_, ?_, ?_⟩
  · intro api hd
    unfold analyzeAPI
    rw [hd]
  · intro hd j hp ho
    unfold analyzeAPI
    rw [hd, hp]
    simp [ho]
  · intro hd h2 hu
    unfold analyzeAPI
    rw [hd]
    unfold isOpenAPISpec at h2
    cases hp : parseJson input with
    | some j =>
      rw [hp] at h2
      have h2b : isOpenAPISpecJson j = false := h2
      simp [h2b, hu]
    | none => simp [hu]
  · unfold analyzeAPI isOpenAPISpec
    cases hd : detectPopularAPI input with
    | some api => simp
    | none =>
      cases hp : parseJson input with
      | some j =>
        cases ho : isOpenAPISpecJson j with
        | true => simp [ho]
        | false => cases hu : isURL input <;> simp [ho, hu]
      | none => cases hu : isURL input <;> simp [hu]
  · intro hp
    unfold isOpenAPISpec
    rw [hp]
  · intro m
    unfold analyzeAPI
    cases hd : detectPopularAPI input with
    | some api => simp
    | none =>
      cases hp : parseJson input with
      | some j =>
        cases ho : isOpenAPISpecJson j with
        | true => simp [ho]
        | false =>
          cases hu : isURL input with
          | true => simp [ho, hu]
          | false =>
            simp [ho, hu]
            exact fun he => he.symm
      | none =>
        cases hu : isURL input with
        | true => simp [hu]
        | false =>
          simp [hu]
          exact fun he => he.symm

/-- C1 witness: with a parse that always fails and a URL test that always
fails, an input matching no vendor signature is rejected with the
UnrecognizedInputError message. -/
theorem analyzeAPI_classification_order_witness :
    analyzeAPI (fun _ => none) (fun _ => false) "??" =
      Except.error unrecognizedInputError :=
  ((analyzeAPI_classification_order (fun _ => none) (fun _ => false)
    "??").2.2.2.1).mpr ⟨rfl, rfl, rfl⟩

/-- C2 counterexample: the input "slack and stripe" contains the Slack
signature substring "slack", yet analyze returns the Stripe record, not
the Slack record — so a vendor-signature match does not return that
vendor's record regardless of the rest of the input. -/
theorem vendor_match_not_rest_independent_cex :
    jsIncludes (jsToLowerCase "slack and stripe") "slack" = true
    ∧ analyzeAPI (fun _ => none) (fun _ => false) "slack and stripe" =
        Except.ok POPULAR_APIS_stripe
    ∧ POPULAR_APIS_stripe ≠ POPULAR_APIS_slack := by
  refine ⟨rfl, rfl, fun h => ?_⟩
  exact absurd (congrArg ParsedAPI.name h) (by decide)

/-- C2 (amended): for every input whose lower-cased form contains one of
a vendor's signature substrings, analyze returns that vendor's exact
catalog record unchanged, provided no earlier vendor in the check order
Stripe, Shopify, Slack also matches; the result is independent of the
parse and URL primitives and of the rest of the input. -/
theorem analyzeAPI_vendor_match_amended (parseJson : String → Option Json)
    (isURL : String → Bool) (input : String) :
    ((jsIncludes (jsToLowerCase input) "stripe" = true ∨
      jsIncludes (jsToLowerCase input) "api.stripe.com" = true) →
      analyzeAPI parseJson isURL input = Except.ok POPULAR_APIS_stripe)
    ∧ (jsIncludes (jsToLowerCase input) "stripe" = false →
       jsIncludes (jsToLowerCase input) "api.stripe.com" = false →
       (jsIncludes (jsToLowerCase input) "shopify" = true ∨
        jsIncludes (jsToLowerCase input) "myshopify.com" = true) →
       analyzeAPI parseJson isURL input = Except.ok POPULAR_APIS_shopify)
    ∧ (jsIncludes (jsToLowerCase input) "stripe" = false →
       jsIncludes (jsToLowerCase input) "api.stripe.com" = false →
       jsIncludes (jsToLowerCase input) "shopify" = false →
       jsIncludes (jsToLowerCase input) "myshopify.com" = false →
       (jsIncludes (jsToLowerCase input) "slack" = true ∨
        jsIncludes (jsToLowerCase input) "slack.com/api" = true) →
       analyzeAPI parseJson isURL input = Except.ok POPULAR_APIS_slack) := by
  unfold analyzeAPI detectPopularAPI
  refine ⟨fun h => ?_, fun h1 h2 h => ?_, fun h1 h2 h3 h4 h => ?_⟩
  · rcases h with h | h <;> simp [h]
  · rcases h with h | h <;> simp [h1, h2, h]
  · rcases h with h | h <;> simp [h1, h2, h3, h4, h]

/-- C2 witness: the spec's own example input returns the Stripe catalog
record. -/
theorem analyzeAPI_vendor_match_amended_witness :
    analyzeAPI (fun _ => none) (fun _ => false) "I use stripe" =
      Except.ok POPULAR_APIS_stripe :=
  (analyzeAPI_vendor_match_amended (fun _ => none) (fun _ => false)
    "I use stripe").1 (Or.inl rfl)

/-- C10: vendor detection has fixed precedence Stripe, then Shopify, then
Slack — expressed with the collapsed signature conditions (each vendor's
second signature substring contains the first, so matching reduces to the
single word); an input containing several vendors' signatures yields the
first vendor in the check order. -/
theorem detectPopularAPI_precedence (input : String) :
    (jsIncludes (jsToLowerCase input) "stripe" = true →
      detectPopularAPI input = some POPULAR_APIS_stripe)
    ∧ (jsIncludes (jsToLowerCase input) "stripe" = false →
       jsIncludes (jsToLowerCase input) "shopify" = true →
       detectPopularAPI input = some POPULAR_APIS_shopify)
    ∧ (jsIncludes (jsToLowerCase input) "stripe" = false →
       jsIncludes (jsToLowerCase input) "shopify" = false →
       jsIncludes (jsToLowerCase input) "slack" = true →
       detectPopularAPI input = some POPULAR_APIS_slack) := by
  refine ⟨fun h1 => ?_, fun h1 h2 => ?_, fun h1 h2 h3 => ?_⟩
  · unfold detectPopularAPI
    simp [h1]
  · have h1b : jsIncludes (jsToLowerCase input) "api.stripe.com" = false :=
      jsIncludes_sub_false _ _ _ h1 (by decide)
    unfold detectPopularAPI
    simp [h1, h1b, h2]
  · have h1b : jsIncludes (jsToLowerCase input) "api.stripe.com" = false :=
      jsIncludes_sub_false _ _ _ h1 (by decide)
    have h2b : jsIncludes (jsToLowerCase input) "myshopify.com" = false :=
      jsIncludes_sub_false _ _ _ h2 (by decide)
    unfold detectPopularAPI
    simp [h1, h1b, h2, h2b, h3]

/-- C10 witness: an input containing both the Slack and the Stripe
signatures resolves to Stripe, the first vendor in the check order. -/
theorem detectPopularAPI_precedence_witness :
    detectPopularAPI "slack plus stripe" = some POPULAR_APIS_stripe :=
  (detectPopularAPI_precedence "slack plus stripe").1 rfl

/-- C8: an input that reaches the bare-URL branch (no vendor signature,
not classified as an OpenAPI document) and passes the URL-syntax test
yields the placeholder record: name Custom API, baseUrl the input, one
synthetic GET endpoint at path / with a single 200 response and no
parameters, apiKey authentication with no location, and capabilities
[General API operations]; the embedding is a pure function, so no network
request is involved. -/
theorem analyzeAPI_url_placeholder (parseJson : String → Option Json)
    (isURL : String → Bool) (input : String)
    (h1 : detectPopularAPI input = none)
    (h2 : isOpenAPISpec parseJson input = false)
    (h3 : isURL input = true) :
    analyzeAPI parseJson isURL input = Except.ok
      { name := "Custom API"
        baseUrl := input
        description := "Custom API endpoint"
        endpoints :=
          [ { path := "/"
              method := Method.GET
              summary := "Root endpoint"
              description := "Main API endpoint"
              parameters := []
              responses := [ { statusCode := some 200, description := "Success" } ]
              tags := ["general"] } ]
        authentication := { type := AuthType.apiKey }
        capabilities := ["General API operations"] } := by
  unfold analyzeAPI
  rw [h1]
  unfold isOpenAPISpec at h2
  cases hp : parseJson input with
  | some j =>
    rw [hp] at h2
    have h2b : isOpenAPISpecJson j = false := h2
    simp [h2b, h3, analyzeAPIFromURL]
  | none => simp [h3, analyzeAPIFromURL]

/-- C8 witness: a syntactically valid URL that is not JSON and matches no
vendor produces the placeholder. -/
theorem analyzeAPI_url_placeholder_witness :
    analyzeAPI (fun _ => none) (fun _ => true) "http://x" = Except.ok
      { name := "Custom API"
        baseUrl := "http://x"
        description := "Custom API endpoint"
        endpoints :=
          [ { path := "/"
              method := Method.GET
              summary := "Root endpoint"
              description := "Main API endpoint"
              parameters := []
              responses := [ { statusCode := some 200, description := "Success" } ]
              tags := ["general"] } ]
        authentication := { type := AuthType.apiKey }
        capabilities := ["General API operations"] } :=
  analyzeAPI_url_placeholder (fun _ => none) (fun _ => true) "http://x" rfl rfl rfl

/-- C3: the endpoints list produced by the OpenAPI branch has exactly one
entry per (path, method) pair of the document's paths mapping whose
method is one of the five allowed verbs (get/post/put/delete/patch, the
document form of GET/POST/PUT/DELETE/PATCH); a pair with any other verb
contributes zero entries. -/
theorem parseOpenAPISpec_endpoint_count (parsed : Json) :
    (parseOpenAPISpec parsed).endpoints.length = allowedPathMethodCount parsed := by
  have he : (parseOpenAPISpec parsed).endpoints =
      (jsOr (parsed.lookup "paths") (Json.obj [])).entries.flatMap (fun pathEntry =>
        pathEntry.2.entries.filterMap fun methodEntry =>
          (Method.ofString? methodEntry.1).map fun m =>
            parseEndpoint pathEntry.1 m methodEntry.2) := rfl
  rw [he]
  unfold allowedPathMethodCount
  generalize (jsOr (parsed.lookup "paths") (Json.obj [])).entries = L
  induction L with
  | nil => rfl
  | cons pe rest ih =>
    rw [List.flatMap_cons, List.flatMap_cons, List.length_append, List.countP_append, ih]
    congr 1
    rw [length_filterMap_countP, List.countP_map]
    have hf : (fun me : String × Json =>
        ((Method.ofString? me.1).map fun m => parseEndpoint pe.1 m me.2).isSome) =
        ((fun m => decide (m ∈ allowedMethodNames)) ∘ Prod.fst) := by
      funext me
      have hsm : ((Method.ofString? me.1).map fun m => parseEndpoint pe.1 m me.2).isSome =
          (Method.ofString? me.1).isSome := by
        cases hm : Method.ofString? me.1 <;> rfl
      rw [hsm, ofString?_isSome]
      rfl
    rw [hf]

/-- C4: the request-body transform appends one body-located APIParameter
per declared property, required exactly when the property name appears in
the schema's required list (a missing required list makes none required),
defaulting a missing type to string and a missing description to the
empty string; in particular the schema with one integer property a
required yields exactly one body parameter named a with required true. -/
theorem bodyParams_per_property (props : List (String × Json)) (reqNames : List String) :
    (bodyParamsOfSchema (Json.obj
        [("type", Json.str "object"), ("properties", Json.obj props),
         ("required", Json.arr (reqNames.map Json.str))]) =
      props.map fun q =>
        { name := q.1
          type := expectedPropertyType q.2
          required := decide (q.1 ∈ reqNames)
          description := jsStrExact (q.2.lookup "description")
          location := "body"
          exampleVal := q.2.lookup "example" })
    ∧ (bodyParamsOfSchema (Json.obj
        [("type", Json.str "object"), ("properties", Json.obj props)]) =
      props.map fun q =>
        { name := q.1
          type := expectedPropertyType q.2
          required := false
          description := jsStrExact (q.2.lookup "description")
          location := "body"
          exampleVal := q.2.lookup "example" })
    ∧ bodyParameters (Json.obj [("requestBody", Json.obj [("content", Json.obj
        [("application/json", Json.obj [("schema", Json.obj
          [("type", Json.str "object"),
           ("properties", Json.obj [("a", Json.obj [("type", Json.str "integer")])]),
           ("required", Json.arr [Json.str "a"])])])])])]) =
        [ { name := "a", type := "integer", required := true, description := "",
            location := "body", exampleVal := none } ] := by
  refine ⟨?_, ?_, rfl⟩
  · have h0 : bodyParamsOfSchema (Json.obj
        [("type", Json.str "object"), ("properties", Json.obj props),
         ("required", Json.arr (reqNames.map Json.str))]) =
        props.map fun q =>
          { name := q.1
            type := jsStrOr (q.2.lookup "type") "string"
            required := jsIncludesStr (reqNames.map Json.str) q.1
            description := jsStrOr (q.2.lookup "description") ""
            location := "body"
            exampleVal := q.2.lookup "example" } := rfl
    rw [h0]
    refine congrArg (fun f => List.map f props) (funext fun q => ?_)
    rw [jsIncludesStr_map_str, jsStrOr_empty]
    rfl
  · have h0 : bodyParamsOfSchema (Json.obj
        [("type", Json.str "object"), ("properties", Json.obj props)]) =
        props.map fun q =>
          { name := q.1
            type := jsStrOr (q.2.lookup "type") "string"
            required := jsIncludesStr [] q.1
            description := jsStrOr (q.2.lookup "description") ""
            location := "body"
            exampleVal := q.2.lookup "example" } := rfl
    rw [h0]
    refine congrArg (fun f => List.map f props) (funext fun q => ?_)
    rw [jsStrOr_empty]
    rfl

/-- C5: each declared response code of an operation's responses mapping
becomes exactly one APIResponse whose statusCode is the parseInt form of
the document's status-code key, whose description defaults to the empty
string when missing, and whose example is read from the application/json
media-type entry of that response's content; parseInt maps the usual
numeric keys to their integer values. -/
theorem parseResponses_per_code (rs : List (String × Json)) :
    (parseResponses (Json.obj [("responses", Json.obj rs)]) =
      rs.map fun codeResp =>
        { statusCode := jsParseInt codeResp.1
          description := jsStrExact (codeResp.2.lookup "description")
          schema := none
          exampleVal := ((codeResp.2.lookup "content").bind fun c =>
            c.lookup "application/json").bind fun m => m.lookup "example" })
    ∧ jsParseInt "200" = some 200 ∧ jsParseInt "201" = some 201
    ∧ jsParseInt "404" = some 404 := by
  refine ⟨?_, rfl, rfl, rfl⟩
  have h0 : parseResponses (Json.obj [("responses", Json.obj rs)]) =
      rs.map fun codeResp =>
        { statusCode := jsParseInt codeResp.1
          description := jsStrOr (codeResp.2.lookup "description") ""
          schema := none
          exampleVal := ((codeResp.2.lookup "content").bind fun c =>
            c.lookup "application/json").bind fun m => m.lookup "example" } := rfl
  rw [h0]
  refine congrArg (fun f => List.map f rs) (funext fun codeResp => ?_)
  rw [jsStrOr_empty]

/-- C6: the derived authentication is decided by the first declared
security scheme of components.securitySchemes, in declaration order: an
http scheme with scheme bearer yields bearer; an apiKey scheme yields
apiKey carrying through its in and name fields as location and name; any
other first scheme, an empty scheme map, or an absent scheme map yields
apiKey with no location and no name. -/
theorem parseAuthentication_first_scheme (n : String) (s : Json)
    (rest : List (String × Json)) :
    (isStrEq (s.lookup "type") "http" = true →
      isStrEq (s.lookup "scheme") "bearer" = true →
      parseAuthentication (securitySchemesDoc ((n, s) :: rest)) =
        { type := AuthType.bearer })
    ∧ (isStrEq (s.lookup "type") "apiKey" = true →
      parseAuthentication (securitySchemesDoc ((n, s) :: rest)) =
        { type := AuthType.apiKey
          location := (s.lookup "in").bind Json.asString?
          name := (s.lookup "name").bind Json.asString? })
    ∧ ((isStrEq (s.lookup "type") "http" && isStrEq (s.lookup "scheme") "bearer") = false →
      isStrEq (s.lookup "type") "apiKey" = false →
      parseAuthentication (securitySchemesDoc ((n, s) :: rest)) =
        { type := AuthType.apiKey })
    ∧ parseAuthentication (Json.obj []) = { type := AuthType.apiKey }
    ∧ parseAuthentication (securitySchemesDoc []) = { type := AuthType.apiKey } := by
  have e : parseAuthentication (securitySchemesDoc ((n, s) :: rest)) =
      (if isStrEq (s.lookup "type") "http" && isStrEq (s.lookup "scheme") "bearer" then
        { type := AuthType.bearer }
      else if isStrEq (s.lookup "type") "apiKey" then
        { type := AuthType.apiKey
          location := (s.lookup "in").bind Json.asString?
          name := (s.lookup "name").bind Json.asString? }
      else { type := AuthType.apiKey }) := rfl
  refine ⟨fun h1 h2 => ?_, fun h => ?_, fun hb hk => ?_, rfl, rfl⟩
  · rw [e, h1, h2]
    rfl
  · have hfalse : isStrEq (s.lookup "type") "http" = false := by
      cases hl : s.lookup "type" with
      | none => rfl
      | some j =>
        cases j with
        | str t =>
          rw [hl] at h
          have ht : t = "apiKey" := eq_of_beq h
          subst ht
          rfl
        | null => rfl
        | bool b => rfl
        | num m => rfl
        | arr xs => rfl
        | obj fs => rfl
    rw [e, hfalse, h]
    rfl
  · rw [e, hb, hk]
    rfl

/-- C6 witness: a document whose first declared scheme is an apiKey
scheme with in header and name X-Key derives exactly that location and
name. -/
theorem parseAuthentication_first_scheme_witness :
    parseAuthentication (securitySchemesDoc
      [("key", Json.obj [("type", Json.str "apiKey"), ("in", Json.str "header"),
        ("name", Json.str "X-Key")])]) =
      { type := AuthType.apiKey, location := some "header", name := some "X-Key" } :=
  (parseAuthentication_first_scheme "key"
    (Json.obj [("type", Json.str "apiKey"), ("in", Json.str "header"),
      ("name", Json.str "X-Key")]) []).2.1 rfl

/-- The per-endpoint insertion step of generateCapabilities is a fold of
set insertions over the endpoint's capability stream segment. -/
theorem generateCapabilities_eq_foldl (es : List APIEndpoint) (acc : List String) :
    es.foldl
      (fun capabilities endpoint =>
        let capabilities := endpoint.tags.foldl
          (fun caps tag => addCap caps ("Manage " ++ tag)) capabilities
        let capabilities :=
          if endpoint.method = Method.GET then addCap capabilities "Retrieve data"
          else capabilities
        let capabilities :=
          if endpoint.method = Method.POST then addCap capabilities "Create resources"
          else capabilities
        let capabilities :=
          if endpoint.method = Method.PUT ∨ endpoint.method = Method.PATCH then
            addCap capabilities "Update resources"
          else capabilities
        if endpoint.method = Method.DELETE then addCap capabilities "Delete resources"
        else capabilities)
      acc = List.foldl addCap acc (capabilityStream es) := by
  induction es generalizing acc with
  | nil => rfl
  | cons e rest ih =>
    rw [List.foldl_cons, ih]
    unfold capabilityStream
    rw [List.flatMap_cons, List.foldl_append]
    congr 1
    rw [List.foldl_append, List.foldl_map]
    cases hm : e.method <;> simp [methodCapability, hm]

/-- C7: the derived capabilities are exactly the deduplication, in
insertion order of first occurrence, of the stream that lists, per
endpoint, one Manage-tag label per tag followed by exactly one of
Retrieve data (GET), Create resources (POST), Update resources
(PUT/PATCH), Delete resources (DELETE); the result never contains
duplicates, and an element belongs to it exactly when some endpoint
contributes it. -/
theorem generateCapabilities_spec (es : List APIEndpoint) :
    generateCapabilities es = dedupFirstOccurrence (capabilityStream es)
    ∧ (generateCapabilities es).Nodup
    ∧ ∀ s, s ∈ generateCapabilities es ↔
        (∃ e ∈ es, ∃ t ∈ e.tags, s = "Manage " ++ t) ∨
        ∃ e ∈ es, s = methodCapability e.method := by
  have h0 : generateCapabilities es = dedupFirstOccurrence (capabilityStream es) := by
    unfold generateCapabilities dedupFirstOccurrence
    exact generateCapabilities_eq_foldl es []
  refine ⟨h0, ?_, ?_⟩
  · rw [h0]
    exact foldl_addCap_nodup _ _ List.nodup_nil
  · intro s
    rw [h0]
    unfold dedupFirstOccurrence
    rw [foldl_addCap_mem]
    simp only [List.not_mem_nil, false_or]
    unfold capabilityStream
    simp only [List.mem_flatMap, List.mem_append, List.mem_map, List.mem_singleton]
    constructor
    · rintro ⟨e, he, ⟨t, ht, rfl⟩ | rfl⟩
      · exact Or.inl ⟨e, he, t, ht, rfl⟩
      · exact Or.inr ⟨e, he, rfl⟩
    · rintro (⟨e, he, t, ht, rfl⟩ | ⟨e, he, rfl⟩)
      · exact ⟨e, he, Or.inl ⟨t, ht, rfl⟩⟩
      · exact ⟨e, he, Or.inr rfl⟩

/-- C9: describe is total pure formatting; whenever the method-count
breakdown of the endpoint list is two GETs followed by one POST, the
output ends with the correctly pluralized breakdown segment
"2 GET endpoints, 1 POST endpoint." (plural for count two, singular for
count one). -/
theorem describe_method_breakdown (api : ParsedAPI)
    (h : methodCounts api.endpoints = [("GET", 2), ("POST", 1)]) :
    ∃ pre, generateNaturalLanguageDescription api =
      pre ++ "2 GET endpoints, 1 POST endpoint." := by
  have e1 : generateNaturalLanguageDescription api =
      (api.name ++ " is " ++ api.description ++ ". " ++ "It provides " ++
        toString api.capabilities.length ++ " main capabilities: " ++
        String.intercalate ", " api.capabilities ++ ". " ++ "The API has " ++
        toString api.endpoints.length ++ " endpoints available for integration. " ++
        "Available operations include: ") ++
      String.intercalate ", " ((methodCounts api.endpoints).map fun methodCount =>
        toString methodCount.2 ++ " " ++ methodCount.1 ++ " endpoint" ++
        (if methodCount.2 > 1 then "s" else "")) ++ "." := rfl
  rw [e1, h]
  refine ⟨api.name ++ " is " ++ api.description ++ ". " ++ "It provides " ++
    toString api.capabilities.length ++ " main capabilities: " ++
    String.intercalate ", " api.capabilities ++ ". " ++ "The API has " ++
    toString api.endpoints.length ++ " endpoints available for integration. " ++
    "Available operations include: ", ?_⟩
  rw [String.append_assoc]
  congr 1

/-- C9 witness: a record with two GET endpoints and one POST endpoint
produces the breakdown segment. -/
theorem describe_method_breakdown_witness :
    ∃ pre, generateNaturalLanguageDescription
      { name := "X"
        baseUrl := ""
        description := "Y"
        endpoints :=
          [ { path := "/a", method := Method.GET, summary := "", description := "",
              parameters := [], responses := [], tags := [] },
            { path := "/b", method := Method.GET, summary := "", description := "",
              parameters := [], responses := [], tags := [] },
            { path := "/c", method := Method.POST, summary := "", description := "",
              parameters := [], responses := [], tags := [] } ]
        authentication := { type := AuthType.apiKey }
        capabilities := [] } =
      pre ++ "2 GET endpoints, 1 POST endpoint." :=
  describe_method_breakdown
    { name := "X"
      baseUrl := ""
      description := "Y"
      endpoints :=
        [ { path := "/a", method := Method.GET, summary := "", description := "",
            parameters := [], responses := [], tags := [] },
          { path := "/b", method := Method.GET, summary := "", description := "",
            parameters := [], responses := [], tags := [] },
          { path := "/c", method := Method.POST, summary := "", description := "",
            parameters := [], responses := [], tags := [] } ]
      authentication := { type := AuthType.apiKey }
      capabilities := [] } rfl
